import Mathlib

/-!
Shallow embedding of the `safeDetectAI` wrapper from `src/src/app/page.tsx`
of the ai-detector-demo repository.

Modelling choices:
* A JavaScript string is a finite sequence of UTF-16 code units
  (`JSString := List Nat`); `String.prototype.trim` and `String.length`
  are embedded faithfully (`.length` counts code units, not code points).
* JavaScript numbers are embedded as rationals; every arithmetic operation
  the wrapper performs (`score * 10`, `(1 - confidence) * 10`) is exact at
  these magnitudes, so rational arithmetic coincides with the IEEE-754
  values computed by the code.
* The external package function `detectAIText` is not part of this
  repository; `safeDetectAI` is therefore parameterized over it as a
  function from strings to an outcome that is either a returned record or
  a thrown value (`DetectOutcome`).  A thrown JavaScript value is either
  an `Error` instance carrying a message or any other value.
-/

/-- A JavaScript string: a finite sequence of UTF-16 code units. -/
abbrev JSString := List Nat

/-- The code units removed by `String.prototype.trim`: the ECMAScript
WhiteSpace and LineTerminator sets. -/
def isJSWhitespace (c : Nat) : Bool :=
  (9 ≤ c && c ≤ 13) || c == 32 || c == 0xA0 || c == 0x1680 ||
  (0x2000 ≤ c && c ≤ 0x200A) || c == 0x2028 || c == 0x2029 ||
  c == 0x202F || c == 0x205F || c == 0x3000 || c == 0xFEFF

/-- `String.prototype.trim`: drop leading and trailing whitespace units. -/
def jsTrim (s : JSString) : JSString :=
  ((s.dropWhile isJSWhitespace).reverse.dropWhile isJSWhitespace).reverse

/-- The number of Unicode code points encoded by a sequence of UTF-16 code
units: a well-formed surrogate pair counts as one code point, every other
unit counts as one. -/
def codePointLength : JSString → Nat
  | [] => 0
  | [_] => 1
  | c1 :: c2 :: rest =>
    if (0xD800 ≤ c1 && c1 ≤ 0xDBFF) && (0xDC00 ≤ c2 && c2 ≤ 0xDFFF) then
      1 + codePointLength rest
    else
      1 + codePointLength (c2 :: rest)

/-- The string constants appearing in `safeDetectAI` (page.tsx 32-62). -/
def tooShortReason : String := "Text too short for reliable analysis"

/-- The `error` message of the short-input branch (page.tsx line 39). -/
def minLengthError : String := "Minimum 50 characters required"

/-- The single reason of the catch branch (page.tsx line 56). -/
def analyzeErrorReason : String := "Error analyzing text"

/-- The `error` message used when the thrown value is not an `Error`
instance (page.tsx line 58). -/
def unknownErrorMsg : String := "Unknown error"

/-- The `AnalysisResult` record (page.tsx lines 21-29).  `error` is the
optional field `error?: string`; all numeric fields are rationals. -/
structure AnalysisResult where
  isAIGenerated : Bool
  confidence : ℚ
  reasons : List String
  score : ℚ
  error : Option String
  perplexityScore : ℚ
  burstinessScore : ℚ
deriving DecidableEq

/-- A value thrown by JavaScript code: either an `Error` instance carrying
a message, or any other value (the wrapper never inspects the latter). -/
inductive Thrown where
  | errorInstance (message : String)
  | otherValue (description : String)
deriving DecidableEq

/-- The ternary `error instanceof Error ? error.message : "Unknown error"`
from page.tsx line 58. -/
def thrownMessage : Thrown → String
  | .errorInstance m => m
  | .otherValue _ => unknownErrorMsg

/-- The outcome of calling the external `detectAIText`: it either returns
an `AnalysisResult`-shaped record or throws a value. -/
inductive DetectOutcome where
  | ok (result : AnalysisResult)
  | thrown (e : Thrown)
deriving DecidableEq

/-- The degenerate record returned by the short-input guard
(page.tsx lines 34-42). -/
def shortInputResult : AnalysisResult :=
  { isAIGenerated := false
    confidence := 0
    reasons := [tooShortReason]
    score := 0
    error := some minLengthError
    perplexityScore := 0
    burstinessScore := 0 }

/-- The degenerate record returned by the catch branch for a thrown value
`e` (page.tsx lines 53-61). -/
def catchResult (e : Thrown) : AnalysisResult :=
  { isAIGenerated := false
    confidence := 0
    reasons := [analyzeErrorReason]
    score := 0
    error := some (thrownMessage e)
    perplexityScore := 0
    burstinessScore := 0 }

/-- `safeDetectAI` (page.tsx lines 32-63), parameterized over the external
`detectAIText`.  The guard compares `text.trim().length` (UTF-16 code
units) against 50; on the success path the object spread keeps every field
of the returned record and then overwrites `perplexityScore` and
`burstinessScore`; a thrown value is mapped to the catch record. -/
def safeDetectAI (detectAIText : JSString → DetectOutcome)
    (text : JSString) : AnalysisResult :=
  if (jsTrim text).length < 50 then
    shortInputResult
  else
    match detectAIText text with
    | .ok result =>
      { result with
          perplexityScore := result.score * 10
          burstinessScore := (1 - result.confidence) * 10 }
    | .thrown e => catchResult e

/-- Modelled from the spec: the degenerate result the core engine returns
when its own length precondition fails (spec section 4.5: trimmed length
below 50 code points yields isAIGenerated false, confidence 0, score 0,
both derived scores 0, a single explanatory reason, and error set to a
minimum-length message).  The exact strings are not fixed by the spec; the
same wording as the wrapper is used. -/
def specCoreDegenerate : AnalysisResult :=
  { isAIGenerated := false
    confidence := 0
    reasons := [tooShortReason]
    score := 0
    error := some minLengthError
    perplexityScore := 0
    burstinessScore := 0 }

/-- Modelled from the spec: the core engine `detectAIText` (spec section
4.5).  The spec determines the guard branch fully: an input whose trimmed
length is below 50 code points yields the degenerate record and the engine
never throws.  The behaviour past the guard (tokenize, extract, aggregate,
explain) is numerically underdetermined by the spec, so it is kept as a
parameter `remainder`; the theorems below only ever evaluate this model on
inputs the guard rejects. -/
def specCore (remainder : JSString → DetectOutcome)
    (text : JSString) : DetectOutcome :=
  if codePointLength (jsTrim text) < 50 then .ok specCoreDegenerate
  else remainder text

/-- Modelled from the spec: the output contract of the score aggregator
(spec section 4.3) — score and confidence lie in the unit interval and the
verdict is exactly the threshold comparison score at least one half. -/
def ValidEngineOutput (r : AnalysisResult) : Prop :=
  0 ≤ r.score ∧ r.score ≤ 1 ∧ 0 ≤ r.confidence ∧ r.confidence ≤ 1 ∧
  (r.isAIGenerated = true ↔ 1/2 ≤ r.score)

/-- A sequence of calls to `safeDetectAI` with the same engine: the page
performs one such call per button press with no state carried between
calls. -/
def runCalls (detectAIText : JSString → DetectOutcome)
    (texts : List JSString) : List AnalysisResult :=
  texts.map (safeDetectAI detectAIText)

/-- Concrete input: fifty latin small letter a code units, long enough to
pass the guard. -/
def fiftyChars : JSString := List.replicate 50 97

/-- Concrete input: ten latin small letter a code units. -/
def tenChars : JSString := List.replicate 10 97

/-- Concrete input: twenty-five copies of U+1D11E (musical symbol G clef),
each encoded as the surrogate pair D834 DD1E.  Fifty UTF-16 code units but
only twenty-five code points, none of them whitespace. -/
def astralText : JSString :=
  (List.replicate 25 ([0xD834, 0xDD1E] : List Nat)).flatten

/-- A sample record as the external engine could return it; its
`perplexityScore` and `burstinessScore` differ from the values the wrapper
recomputes, so overwriting is observable. -/
def sampleResult : AnalysisResult :=
  { isAIGenerated := true
    confidence := 4/5
    reasons := [tooShortReason]
    score := 7/10
    error := none
    perplexityScore := 42
    burstinessScore := 99 }

/-- A concrete engine that always returns `sampleResult`. -/
def engineOk : JSString → DetectOutcome := fun _ => .ok sampleResult

/-- The message of the concrete thrown `Error` used in witnesses. -/
def boomMsg : String := "boom"

/-- A concrete engine that always throws an `Error` instance. -/
def engineThrowErr : JSString → DetectOutcome :=
  fun _ => .thrown (.errorInstance boomMsg)

/-- The description of the concrete non-`Error` thrown value. -/
def otherPayload : String := "a thrown string value"

/-- A concrete engine that always throws a value that is not an `Error`
instance. -/
def engineThrowOther : JSString → DetectOutcome :=
  fun _ => .thrown (.otherValue otherPayload)

/-- C1 counterexample: the claim speaks of trimmed length in code points,
but the guard in `safeDetectAI` compares `text.trim().length`, which
counts UTF-16 code units.  `astralText` has 25 code points (below 50) yet
50 code units, so the guard does not fire and the engine is called; with
the engine behaving as the spec prescribes on such input (its own guard
returns the degenerate record with confidence 0), the wrapper overwrites
`burstinessScore` with `(1 - 0) * 10 = 10`, not 0 as the claim demands. -/
theorem c1_counterexample :
    codePointLength (jsTrim astralText) < 50 ∧
    (safeDetectAI (specCore engineOk) astralText).burstinessScore = 10 ∧
    (safeDetectAI (specCore engineOk) astralText).burstinessScore ≠ 0 := by
  have h1 : ¬ (jsTrim astralText).length < 50 := by decide
  have h2 : codePointLength (jsTrim astralText) < 50 := by decide
  refine ⟨h2, ?_, ?_⟩ <;>
    simp [safeDetectAI, specCore, h1, h2, specCoreDegenerate]

/-- C1 (amended: trimmed length measured in UTF-16 code units, the unit
`String.length` uses, rather than code points): every input whose trimmed
length is under 50 code units gets the fixed degenerate record —
isAIGenerated false, confidence 0, score 0, perplexityScore 0,
burstinessScore 0, exactly one reason, and error set to the
minimum-length message. -/
theorem c1_short_input_guard (d : JSString → DetectOutcome)
    (text : JSString) (h : (jsTrim text).length < 50) :
    (safeDetectAI d text).isAIGenerated = false ∧
    (safeDetectAI d text).confidence = 0 ∧
    (safeDetectAI d text).score = 0 ∧
    (safeDetectAI d text).perplexityScore = 0 ∧
    (safeDetectAI d text).burstinessScore = 0 ∧
    (safeDetectAI d text).reasons.length = 1 ∧
    (safeDetectAI d text).error = some minLengthError := by
  simp [safeDetectAI, h, shortInputResult]

/-- C1 witness: the empty string and a 10-character string both take the
guard branch — error populated and isAIGenerated false. -/
theorem c1_short_input_guard_witness :
    ((safeDetectAI engineOk []).isAIGenerated = false ∧
     (safeDetectAI engineOk []).confidence = 0 ∧
     (safeDetectAI engineOk []).score = 0 ∧
     (safeDetectAI engineOk []).perplexityScore = 0 ∧
     (safeDetectAI engineOk []).burstinessScore = 0 ∧
     (safeDetectAI engineOk []).reasons.length = 1 ∧
     (safeDetectAI engineOk []).error = some minLengthError) ∧
    ((safeDetectAI engineOk tenChars).isAIGenerated = false ∧
     (safeDetectAI engineOk tenChars).confidence = 0 ∧
     (safeDetectAI engineOk tenChars).score = 0 ∧
     (safeDetectAI engineOk tenChars).perplexityScore = 0 ∧
     (safeDetectAI engineOk tenChars).burstinessScore = 0 ∧
     (safeDetectAI engineOk tenChars).reasons.length = 1 ∧
     (safeDetectAI engineOk tenChars).error = some minLengthError) :=
  ⟨c1_short_input_guard engineOk [] (by decide),
   c1_short_input_guard engineOk tenChars (by decide)⟩

/-- C2: `safeDetectAI` is total by construction (its type returns a record
for every input), and whenever the engine call would throw — whatever the
thrown value is — the result is the degenerate catch record: error
populated, isAIGenerated false, confidence 0, score 0.  No hypothesis on
the input length is needed: on the short path the guard record satisfies
the same conditions, so no thrown value ever reaches the caller. -/
theorem c2_total_catch (d : JSString → DetectOutcome) (text : JSString)
    (e : Thrown) (h : d text = .thrown e) :
    (safeDetectAI d text).error.isSome = true ∧
    (safeDetectAI d text).isAIGenerated = false ∧
    (safeDetectAI d text).confidence = 0 ∧
    (safeDetectAI d text).score = 0 := by
  unfold safeDetectAI
  by_cases hs : (jsTrim text).length < 50
  · simp [hs, shortInputResult]
  · simp [hs, h, catchResult]

/-- C2 witness: an engine that throws an `Error` on a 50-character input
is caught and converted. -/
theorem c2_total_catch_witness :
    (safeDetectAI engineThrowErr fiftyChars).error.isSome = true ∧
    (safeDetectAI engineThrowErr fiftyChars).isAIGenerated = false ∧
    (safeDetectAI engineThrowErr fiftyChars).confidence = 0 ∧
    (safeDetectAI engineThrowErr fiftyChars).score = 0 :=
  c2_total_catch engineThrowErr fiftyChars (.errorInstance boomMsg) rfl

/-- C3: on the non-degenerate path (guard passed, engine returned a
record) the returned record satisfies the exact derived-field identities
perplexityScore = score * 10 and burstinessScore = (1 - confidence) * 10,
in terms of its own score and confidence fields. -/
theorem c3_derived_field_identities (d : JSString → DetectOutcome)
    (text : JSString) (r : AnalysisResult)
    (hlen : ¬ (jsTrim text).length < 50) (h : d text = .ok r) :
    (safeDetectAI d text).perplexityScore =
      (safeDetectAI d text).score * 10 ∧
    (safeDetectAI d text).burstinessScore =
      (1 - (safeDetectAI d text).confidence) * 10 := by
  simp [safeDetectAI, hlen, h]

/-- C3 witness: a concrete successful analysis on a 50-character input. -/
theorem c3_derived_field_identities_witness :
    (safeDetectAI engineOk fiftyChars).perplexityScore =
      (safeDetectAI engineOk fiftyChars).score * 10 ∧
    (safeDetectAI engineOk fiftyChars).burstinessScore =
      (1 - (safeDetectAI engineOk fiftyChars).confidence) * 10 :=
  c3_derived_field_identities engineOk fiftyChars sampleResult
    (by decide) rfl

/-- C4: when the engine satisfies the aggregator output contract the spec
gives it (score and confidence in the unit interval, verdict equal to the
threshold comparison), the wrapper preserves all three properties on every
valid input: it passes score, confidence and isAIGenerated through the
object spread unchanged. -/
theorem c4_valid_result_ranges (d : JSString → DetectOutcome)
    (hd : ∀ t r, d t = .ok r → ValidEngineOutput r)
    (text : JSString) (r : AnalysisResult)
    (hlen : ¬ (jsTrim text).length < 50) (h : d text = .ok r) :
    0 ≤ (safeDetectAI d text).score ∧
    (safeDetectAI d text).score ≤ 1 ∧
    0 ≤ (safeDetectAI d text).confidence ∧
    (safeDetectAI d text).confidence ≤ 1 ∧
    ((safeDetectAI d text).isAIGenerated = true ↔
      1/2 ≤ (safeDetectAI d text).score) := by
  obtain ⟨h1, h2, h3, h4, h5⟩ := hd text r h
  simp only [safeDetectAI, hlen, if_false, h]
  exact ⟨h1, h2, h3, h4, h5⟩

/-- C4 witness: a concrete engine whose only output satisfies the contract,
on a 50-character input. -/
theorem c4_valid_result_ranges_witness :
    0 ≤ (safeDetectAI engineOk fiftyChars).score ∧
    (safeDetectAI engineOk fiftyChars).score ≤ 1 ∧
    0 ≤ (safeDetectAI engineOk fiftyChars).confidence ∧
    (safeDetectAI engineOk fiftyChars).confidence ≤ 1 ∧
    ((safeDetectAI engineOk fiftyChars).isAIGenerated = true ↔
      1/2 ≤ (safeDetectAI engineOk fiftyChars).score) :=
  c4_valid_result_ranges engineOk
    (fun t r h => by
      injection h with h2
      rw [← h2]
      unfold ValidEngineOutput sampleResult
      norm_num)
    fiftyChars sampleResult (by decide) rfl

/-- C5: the guard makes `safeDetectAI` on a short input independent of the
engine — for any two engines the results are identical, so the engine is
never consulted when the trimmed length is below 50 code units. -/
theorem c5_short_input_engine_independent
    (d₁ d₂ : JSString → DetectOutcome) (text : JSString)
    (h : (jsTrim text).length < 50) :
    safeDetectAI d₁ text = safeDetectAI d₂ text := by
  simp [safeDetectAI, h]

/-- C5 witness: a returning engine and a throwing engine give the same
result on the empty string. -/
theorem c5_short_input_engine_independent_witness :
    safeDetectAI engineOk [] = safeDetectAI engineThrowErr [] :=
  c5_short_input_engine_independent engineOk engineThrowErr [] (by decide)

/-- C6: determinism — two successive calls on the identical text give
identical results.  The embedding is a pure function of the input string
and the engine, which is faithful to the source: `safeDetectAI` reads
nothing but its argument and the imported `detectAIText`, uses no
randomness, and mutates no state shared between calls. -/
theorem c6_deterministic (d : JSString → DetectOutcome)
    (text : JSString) :
    runCalls d [text, text] = [safeDetectAI d text, safeDetectAI d text] ∧
    (runCalls d [text, text]).get? 0 = (runCalls d [text, text]).get? 1 :=
  ⟨rfl, rfl⟩

/-- C7: the error field on each path of the wrapper — set to the
minimum-length message on the short path, set to the thrown value message
on the catch path, and on the successful path equal to whatever the engine
record carried: the fields the wrapper itself adds there are only
perplexityScore and burstinessScore, never error. -/
theorem c7_error_field_per_path (d : JSString → DetectOutcome)
    (text : JSString) :
    ((jsTrim text).length < 50 →
      (safeDetectAI d text).error = some minLengthError) ∧
    (∀ e, ¬ (jsTrim text).length < 50 → d text = .thrown e →
      (safeDetectAI d text).error = some (thrownMessage e)) ∧
    (∀ r, ¬ (jsTrim text).length < 50 → d text = .ok r →
      (safeDetectAI d text).error = r.error) := by
  refine ⟨fun h => ?_, fun e hs h => ?_, fun r hs h => ?_⟩
  · simp [safeDetectAI, h, shortInputResult]
  · simp [safeDetectAI, hs, h, catchResult]
  · simp [safeDetectAI, hs, h]

/-- C7 witness: the short path populates the error field on the empty
string. -/
theorem c7_error_field_per_path_witness :
    (safeDetectAI engineOk []).error = some minLengthError :=
  (c7_error_field_per_path engineOk []).1 (by decide)

/-- C8: on every degenerate path — short input or thrown engine call — the
result has burstinessScore 0 and confidence 0, while the display formula
(1 - confidence) * 10 evaluates to 10; the burstiness identity of the
successful path therefore fails on every degenerate result. -/
theorem c8_degenerate_burstiness_breaks_identity
    (d : JSString → DetectOutcome) (text : JSString)
    (h : (jsTrim text).length < 50 ∨ ∃ e, d text = .thrown e) :
    (safeDetectAI d text).burstinessScore = 0 ∧
    (safeDetectAI d text).confidence = 0 ∧
    (1 - (safeDetectAI d text).confidence) * 10 = 10 ∧
    (safeDetectAI d text).burstinessScore ≠
      (1 - (safeDetectAI d text).confidence) * 10 := by
  have hres : (safeDetectAI d text).burstinessScore = 0 ∧
      (safeDetectAI d text).confidence = 0 := by
    rcases h with h | ⟨e, h⟩
    · simp [safeDetectAI, h, shortInputResult]
    · by_cases hs : (jsTrim text).length < 50
      · simp [safeDetectAI, hs, shortInputResult]
      · simp [safeDetectAI, hs, h, catchResult]
  refine ⟨hres.1, hres.2, ?_, ?_⟩
  · rw [hres.2]; norm_num
  · rw [hres.1, hres.2]; norm_num

/-- C8 witness: the empty string takes the short path, where the identity
fails. -/
theorem c8_degenerate_burstiness_breaks_identity_witness :
    (safeDetectAI engineOk []).burstinessScore = 0 ∧
    (safeDetectAI engineOk []).confidence = 0 ∧
    (1 - (safeDetectAI engineOk []).confidence) * 10 = 10 ∧
    (safeDetectAI engineOk []).burstinessScore ≠
      (1 - (safeDetectAI engineOk []).confidence) * 10 :=
  c8_degenerate_burstiness_breaks_identity engineOk []
    (Or.inl (by decide))

/-- C9: on the successful path the wrapper returns the engine record with
every field unchanged except perplexityScore and burstinessScore, which
are overwritten with score * 10 and (1 - confidence) * 10 computed from
the engine record — whatever perplexityScore and burstinessScore the
engine itself supplied never appear in the output. -/
theorem c9_success_frame (d : JSString → DetectOutcome)
    (text : JSString) (r : AnalysisResult)
    (hlen : ¬ (jsTrim text).length < 50) (h : d text = .ok r) :
    (safeDetectAI d text).isAIGenerated = r.isAIGenerated ∧
    (safeDetectAI d text).confidence = r.confidence ∧
    (safeDetectAI d text).reasons = r.reasons ∧
    (safeDetectAI d text).score = r.score ∧
    (safeDetectAI d text).error = r.error ∧
    (safeDetectAI d text).perplexityScore = r.score * 10 ∧
    (safeDetectAI d text).burstinessScore = (1 - r.confidence) * 10 := by
  simp [safeDetectAI, hlen, h]

/-- C9 witness: `sampleResult` carries perplexityScore 42 and
burstinessScore 99, and neither survives — the output values are the
recomputed 7 and 2. -/
theorem c9_success_frame_witness :
    ((safeDetectAI engineOk fiftyChars).isAIGenerated =
       sampleResult.isAIGenerated ∧
     (safeDetectAI engineOk fiftyChars).confidence =
       sampleResult.confidence ∧
     (safeDetectAI engineOk fiftyChars).reasons = sampleResult.reasons ∧
     (safeDetectAI engineOk fiftyChars).score = sampleResult.score ∧
     (safeDetectAI engineOk fiftyChars).error = sampleResult.error ∧
     (safeDetectAI engineOk fiftyChars).perplexityScore =
       sampleResult.score * 10 ∧
     (safeDetectAI engineOk fiftyChars).burstinessScore =
       (1 - sampleResult.confidence) * 10) ∧
    (safeDetectAI engineOk fiftyChars).perplexityScore ≠
      sampleResult.perplexityScore ∧
    (safeDetectAI engineOk fiftyChars).burstinessScore ≠
      sampleResult.burstinessScore :=
  ⟨c9_success_frame engineOk fiftyChars sampleResult (by decide) rfl,
   by
     have hlen : ¬ (jsTrim fiftyChars).length < 50 := by decide
     constructor <;>
       norm_num [safeDetectAI, hlen, engineOk, sampleResult]⟩

/-- C10: on the catch path the error field is the message of the thrown
value when it is an `Error` instance and the fixed string otherwise, so
error is a defined string on every failure path; the reasons list there is
exactly the one-element list with the fixed analysis-error text. -/
theorem c10_catch_error_message (d : JSString → DetectOutcome)
    (text : JSString) (e : Thrown)
    (hlen : ¬ (jsTrim text).length < 50) (h : d text = .thrown e) :
    (safeDetectAI d text).error = some (thrownMessage e) ∧
    (∀ m, e = .errorInstance m → (safeDetectAI d text).error = some m) ∧
    (∀ v, e = .otherValue v →
      (safeDetectAI d text).error = some unknownErrorMsg) ∧
    (safeDetectAI d text).reasons = [analyzeErrorReason] := by
  refine ⟨?_, ?_, ?_, ?_⟩
  · simp [safeDetectAI, hlen, h, catchResult]
  · rintro m rfl; simp [safeDetectAI, hlen, h, catchResult, thrownMessage]
  · rintro v rfl; simp [safeDetectAI, hlen, h, catchResult, thrownMessage]
  · simp [safeDetectAI, hlen, h, catchResult]

/-- C10 witness: a thrown `Error` instance surfaces its message, a thrown
non-`Error` value surfaces the fixed unknown-error string, and the catch
path emits the one-element reasons list. -/
theorem c10_catch_error_message_witness :
    (safeDetectAI engineThrowErr fiftyChars).error = some boomMsg ∧
    (safeDetectAI engineThrowOther fiftyChars).error =
      some unknownErrorMsg ∧
    (safeDetectAI engineThrowErr fiftyChars).reasons =
      [analyzeErrorReason] :=
  ⟨(c10_catch_error_message engineThrowErr fiftyChars
      (.errorInstance boomMsg) (by decide) rfl).2.1 boomMsg rfl,
   (c10_catch_error_message engineThrowOther fiftyChars
      (.otherValue otherPayload) (by decide) rfl).2.2.1 otherPayload rfl,
   (c10_catch_error_message engineThrowErr fiftyChars
      (.errorInstance boomMsg) (by decide) rfl).2.2.2⟩
